import Mathlib

/-!
Shallow embedding of the frame sequencer from pimdewit/pdw.imagesequence.

The repository contains three near-identical revisions of one class:
* `StepAnimation` (the latest revision, `src/unnamed/part_000`),
* `SpriteSequence` (middle revision, `src/src/imagesequence.js` lines 38-420),
* an earlier `SpriteSequence` (`src/src/imagesequence.js` lines 458-762).

DOM measurements (`offsetWidth` / `offsetHeight`) are integer pixel counts and
are modelled as naturals.  JavaScript numeric division on such measurements is
exact real division on the values that occur here, so the derived frame count
and the frame index are modelled as rationals.  DOM side effects (class-name
toggling, the repeating timer handle) are reduced to the state they encode:
`_active` records whether a timer is running, and `graphicTransform` records
the last CSS transform written to `elements.graphic.style.transform`.
-/

namespace StepAnimation

/-- A measured DOM region: `offsetWidth` and `offsetHeight` in pixels. -/
structure Elem where
  offsetWidth : Nat
  offsetHeight : Nat
deriving DecidableEq

/-- The `elements` record built in the constructor: the container and the
sprite-sheet child (`graphic`).  In a completed construction the graphic is
present. -/
structure Elements where
  container : Elem
  graphic : Elem
deriving DecidableEq

/-- The direction selector / resolved direction (`CONSTANTS.DIRECTION`). -/
inductive Direction
  | auto
  | horizontal
  | vertical
deriving DecidableEq

/-- `CONSTANTS.DIRECTION.DEFAULT` is the vertical direction. -/
def DIRECTION_DEFAULT : Direction := Direction.vertical

/-- `CONSTANTS.INTERVAL`, the default interval in milliseconds. -/
def INTERVAL : ℚ := 300

/-- `_isHorizontal()`: whether the resolved direction is horizontal. -/
def _isHorizontal (d : Direction) : Bool :=
  decide (d = Direction.horizontal)

/-- `_getContentDirection(spritesheet)` of `StepAnimation` (part_000 lines
399-411): wider than tall resolves horizontal, taller than wide resolves
vertical, equal falls back to the default (vertical). -/
def _getContentDirection (spritesheet : Elem) : Direction :=
  if spritesheet.offsetWidth > spritesheet.offsetHeight then Direction.horizontal
  else if spritesheet.offsetWidth < spritesheet.offsetHeight then Direction.vertical
  else DIRECTION_DEFAULT

/-- `_calculateDirection()` of the middle `SpriteSequence` revision
(imagesequence.js lines 362-373): wider than tall resolves horizontal,
otherwise vertical. -/
def _calculateDirection (graphic : Elem) : Direction :=
  if graphic.offsetWidth > graphic.offsetHeight then Direction.horizontal
  else Direction.vertical

/-- `_calculateDirection()` of the earliest `SpriteSequence` revision
(imagesequence.js lines 750-761): the code sets VERTICAL when the graphic is
wider than tall and HORIZONTAL otherwise, although its own comment says
"Set our animation direction to horizontal if the width of the graphic
element is larger than its height". -/
def _calculateDirectionEarly (graphic : Elem) : Direction :=
  if graphic.offsetWidth > graphic.offsetHeight then Direction.vertical
  else Direction.horizontal

/-- `_getFrameCount()` (part_000 lines 374-386): divides the graphic's extent
along the resolved axis by the container's corresponding extent and subtracts
one.  Plain JavaScript division: no flooring or truncation. -/
def _getFrameCount (d : Direction) (container graphic : Elem) : ℚ :=
  if _isHorizontal d then (graphic.offsetWidth : ℚ) / (container.offsetWidth : ℚ) - 1
  else (graphic.offsetHeight : ℚ) / (container.offsetHeight : ℚ) - 1

/-- `_initialFrame()` (part_000 lines 435-437): the frame count when reversed,
`0` otherwise. -/
def _initialFrame (reversed : Bool) (count : ℚ) : ℚ :=
  if reversed then count else 0

/-- `_frameInfo`: `{width, height, count}` measured once at construction;
`width`/`height` are the container's extents (the extent of a single frame). -/
structure FrameInfo where
  width : ℚ
  height : ℚ
  count : ℚ
deriving DecidableEq

/-- A CSS translation written to the graphic: `translateX(v px)` or
`translateY(v px)`. -/
inductive Transform
  | translateX (px : ℚ)
  | translateY (px : ℚ)
deriving DecidableEq

/-- Instance state after a completed construction.  `_direction` is the
resolved (never `auto`) direction; `_active` stands in for the timer handle
(`_timer` is set exactly when `_active`); `graphicTransform` is the last value
written to `elements.graphic.style.transform` (none right after
construction). -/
structure State where
  elements : Elements
  _interval : ℚ
  _direction : Direction
  _reversed : Bool
  _active : Bool
  _frameInfo : FrameInfo
  _frame : ℚ
  graphicTransform : Option Transform
deriving DecidableEq

/-- The one modelled failure: the spec's `ConfigurationError`, raised when the
sprite-sheet child is absent at construction. -/
inductive ConfigError
  | ConfigurationError
deriving DecidableEq

/-- The `StepAnimation` constructor (part_000 lines 111-197).  `graphic` is
the result of querying the container for the graphic child class — `none`
models an absent child.  When the child is absent the constructor
unconditionally dereferences it (in `_getContentDirection` when the direction
is `auto`, and in `_getFrameCount` always), so construction throws before
completing; that failure — the spec's `ConfigurationError` — propagates to the
caller since the constructor contains no handler. -/
def construct (container : Elem) (graphic : Option Elem) (opt_interval : ℚ)
    (opt_direction : Direction) (opt_reverse : Bool) : Except ConfigError State :=
  match graphic with
  | none => Except.error ConfigError.ConfigurationError
  | some g =>
    let direction := if opt_direction = Direction.auto then _getContentDirection g else opt_direction
    let fi : FrameInfo :=
      ⟨(container.offsetWidth : ℚ), (container.offsetHeight : ℚ), _getFrameCount direction container g⟩
    Except.ok ⟨⟨container, g⟩, opt_interval, direction, opt_reverse, false, fi,
      _initialFrame opt_reverse fi.count, none⟩

/-- `_frameInRange(frame)` (part_000 lines 361-363):
`frame >= 0 && frame <= this._frameInfo.count`. -/
def _frameInRange (s : State) (frame : ℚ) : Bool :=
  decide (frame ≥ 0) && decide (frame ≤ s._frameInfo.count)

/-- `_calculateNextTransform()` (part_000 lines 339-346): if the current frame
is out of range, reset it to the initial frame; then write
`translateX(-offset px)` (horizontal) or `translateY(-offset px)` (vertical)
to the graphic, where `offset = this._frame * this._frameInfo.height` — the
container height, whatever the resolved axis. -/
def _calculateNextTransform (s : State) : State :=
  let s' := if _frameInRange s s._frame then s
            else { s with _frame := _initialFrame s._reversed s._frameInfo.count }
  let offset : ℚ := s'._frame * s'._frameInfo.height
  let t : Transform := if _isHorizontal s'._direction then Transform.translateX (-offset)
                       else Transform.translateY (-offset)
  { s' with graphicTransform := some t }

/-- `previous()` (part_000 lines 313-316): decrement the frame, then wrap and
apply the transform. -/
def previous (s : State) : State :=
  _calculateNextTransform { s with _frame := s._frame - 1 }

/-- `next()` (part_000 lines 325-328): increment the frame, then wrap and
apply the transform. -/
def next (s : State) : State :=
  _calculateNextTransform { s with _frame := s._frame + 1 }

/-- `start(opt_frame)` (part_000 lines 274-281): no-op when already active;
otherwise schedules the repeating timer and marks the instance active.  The
`opt_frame` parameter is accepted but never read. -/
def start (opt_frame : Option ℚ) (s : State) : State :=
  if s._active then s else { s with _active := true }

/-- `stop()` (part_000 lines 290-297): no-op when idle; otherwise clears the
timer and the active flag. -/
def stop (s : State) : State :=
  if s._active then { s with _active := false } else s

/-- `_nextOrPrevious()` (part_000 lines 302-304): the timer tick body. -/
def _nextOrPrevious (s : State) : State :=
  if s._reversed then previous s else next s

/-- The `interval` setter (part_000 lines 253-259): `stop()`, replace the
interval, `start()`. -/
def set_interval (i : ℚ) (s : State) : State :=
  start none { stop s with _interval := i }

/-- One externally invoked call on the instance: `start`, `stop`, `previous`
or `next`. -/
inductive Op
  | startOp (opt_frame : Option ℚ)
  | stopOp
  | prevOp
  | nextOp

/-- Dispatch one call to the corresponding method. -/
def applyOp (s : State) : Op → State
  | Op.startOp f => start f s
  | Op.stopOp => stop s
  | Op.prevOp => previous s
  | Op.nextOp => next s

/-- Execute a finite sequence of calls, left to right. -/
def run (s : State) : List Op → State
  | [] => s
  | o :: os => run (applyOp s o) os

/-! ### Basic lemmas about the embedding -/

lemma frameInRange_iff (s : State) (f : ℚ) :
    _frameInRange s f = true ↔ 0 ≤ f ∧ f ≤ s._frameInfo.count := by
  simp [_frameInRange, ge_iff_le]

lemma calc_elements (s : State) :
    (_calculateNextTransform s).elements = s.elements := by
  unfold _calculateNextTransform
  split <;> rfl

lemma calc_interval (s : State) :
    (_calculateNextTransform s)._interval = s._interval := by
  unfold _calculateNextTransform
  split <;> rfl

lemma calc_direction (s : State) :
    (_calculateNextTransform s)._direction = s._direction := by
  unfold _calculateNextTransform
  split <;> rfl

lemma calc_reversed (s : State) :
    (_calculateNextTransform s)._reversed = s._reversed := by
  unfold _calculateNextTransform
  split <;> rfl

lemma calc_active (s : State) :
    (_calculateNextTransform s)._active = s._active := by
  unfold _calculateNextTransform
  split <;> rfl

lemma calc_frameInfo (s : State) :
    (_calculateNextTransform s)._frameInfo = s._frameInfo := by
  unfold _calculateNextTransform
  split <;> rfl

lemma calc_frame_of_inRange (s : State) (h0 : 0 ≤ s._frame)
    (h1 : s._frame ≤ s._frameInfo.count) :
    (_calculateNextTransform s)._frame = s._frame := by
  unfold _calculateNextTransform
  rw [if_pos ((frameInRange_iff s s._frame).mpr ⟨h0, h1⟩)]

lemma calc_frame_of_notInRange (s : State)
    (h : ¬ (0 ≤ s._frame ∧ s._frame ≤ s._frameInfo.count)) :
    (_calculateNextTransform s)._frame = _initialFrame s._reversed s._frameInfo.count := by
  unfold _calculateNextTransform
  rw [if_neg]
  simp only [frameInRange_iff]
  exact h

lemma next_frameInfo (s : State) : (next s)._frameInfo = s._frameInfo :=
  calc_frameInfo _

lemma next_reversed (s : State) : (next s)._reversed = s._reversed :=
  calc_reversed _

lemma previous_frameInfo (s : State) : (previous s)._frameInfo = s._frameInfo :=
  calc_frameInfo _

lemma previous_reversed (s : State) : (previous s)._reversed = s._reversed :=
  calc_reversed _

lemma next_frame_of_le (s : State) (h0 : 0 ≤ s._frame + 1)
    (h1 : s._frame + 1 ≤ s._frameInfo.count) :
    (next s)._frame = s._frame + 1 :=
  calc_frame_of_inRange _ h0 h1

lemma next_frame_of_gt (s : State) (h : s._frameInfo.count < s._frame + 1) :
    (next s)._frame = _initialFrame s._reversed s._frameInfo.count :=
  calc_frame_of_notInRange _ (by rintro ⟨-, h1⟩; exact absurd h1 (not_le.mpr h))

lemma previous_frame_of_le (s : State) (h0 : 0 ≤ s._frame - 1)
    (h1 : s._frame - 1 ≤ s._frameInfo.count) :
    (previous s)._frame = s._frame - 1 :=
  calc_frame_of_inRange _ h0 h1

lemma previous_frame_of_neg (s : State) (h : s._frame - 1 < 0) :
    (previous s)._frame = _initialFrame s._reversed s._frameInfo.count :=
  calc_frame_of_notInRange _ (by rintro ⟨h0, -⟩; exact absurd h0 (not_le.mpr h))

lemma stop_active (s : State) : (stop s)._active = false := by
  unfold stop
  split <;> simp_all

/-! ### Sample constructed instances used by witnesses and counterexamples -/

/-- The state constructed from a 100×100 container and a 100×500 sheet
(auto ⇒ vertical, count 4, not reversed). -/
def sampleForward : State :=
  ⟨⟨⟨100, 100⟩, ⟨100, 500⟩⟩, 300, Direction.vertical, false, false, ⟨100, 100, 4⟩, 0, none⟩

lemma construct_sampleForward :
    construct ⟨100, 100⟩ (some ⟨100, 500⟩) 300 Direction.auto false = Except.ok sampleForward := by
  simp [construct, sampleForward, _getContentDirection, _getFrameCount, _isHorizontal,
    _initialFrame, DIRECTION_DEFAULT] <;> norm_num

/-- The same geometry constructed with the reverse flag set (initial frame 4). -/
def sampleReversed : State :=
  ⟨⟨⟨100, 100⟩, ⟨100, 500⟩⟩, 300, Direction.vertical, true, false, ⟨100, 100, 4⟩, 4, none⟩

lemma construct_sampleReversed :
    construct ⟨100, 100⟩ (some ⟨100, 500⟩) 300 Direction.auto true = Except.ok sampleReversed := by
  simp [construct, sampleReversed, _getContentDirection, _getFrameCount, _isHorizontal,
    _initialFrame, DIRECTION_DEFAULT] <;> norm_num

/-- The state constructed from a 100×50 container and a 500×50 sheet
(auto ⇒ horizontal, count 4): the frame width (100) and frame height (50)
differ. -/
def sampleHorizontal : State :=
  ⟨⟨⟨100, 50⟩, ⟨500, 50⟩⟩, 300, Direction.horizontal, false, false, ⟨100, 50, 4⟩, 0, none⟩

lemma construct_sampleHorizontal :
    construct ⟨100, 50⟩ (some ⟨500, 50⟩) 300 Direction.auto false = Except.ok sampleHorizontal := by
  simp [construct, sampleHorizontal, _getContentDirection, _getFrameCount, _isHorizontal,
    _initialFrame, DIRECTION_DEFAULT] <;> norm_num

/-- The state constructed from a 100×100 container and a 50×50 sheet: both
regions have non-zero extents, the sheet is square so the resolved direction
is the default (vertical), and the frame count is 50/100 − 1 = −1/2. -/
def sampleSmallSheet : State :=
  ⟨⟨⟨100, 100⟩, ⟨50, 50⟩⟩, 300, Direction.vertical, false, false, ⟨100, 100, -(1/2)⟩, 0, none⟩

lemma construct_sampleSmallSheet :
    construct ⟨100, 100⟩ (some ⟨50, 50⟩) 300 Direction.auto false = Except.ok sampleSmallSheet := by
  simp [construct, sampleSmallSheet, _getContentDirection, _getFrameCount, _isHorizontal,
    _initialFrame, DIRECTION_DEFAULT] <;> norm_num

/-- The state constructed from a 100×100 container and a 100×250 sheet
(auto ⇒ vertical): the sheet height is not an exact multiple of the container
height, and the frame count is 250/100 − 1 = 3/2. -/
def sampleRagged : State :=
  ⟨⟨⟨100, 100⟩, ⟨100, 250⟩⟩, 300, Direction.vertical, false, false, ⟨100, 100, 3/2⟩, 0, none⟩

lemma construct_sampleRagged :
    construct ⟨100, 100⟩ (some ⟨100, 250⟩) 300 Direction.auto false = Except.ok sampleRagged := by
  simp [construct, sampleRagged, _getContentDirection, _getFrameCount, _isHorizontal,
    _initialFrame, DIRECTION_DEFAULT] <;> norm_num

/-- The transform that a step actually writes, described in terms of the
post-step state: a translation along the resolved axis whose magnitude is the
negated product of the current frame and `frameInfo.height` (the container
height), whatever the resolved axis. -/
def stepTransform (s : State) : Transform :=
  if _isHorizontal s._direction then Transform.translateX (-(s._frame * s._frameInfo.height))
  else Transform.translateY (-(s._frame * s._frameInfo.height))

lemma calc_graphicTransform (s : State) :
    (_calculateNextTransform s).graphicTransform =
      some (stepTransform (_calculateNextTransform s)) := by
  simp only [_calculateNextTransform, stepTransform]

lemma count_nonneg_aux (c g : ℕ) (hc : 0 < c) (hle : c ≤ g) :
    0 ≤ (g : ℚ) / (c : ℚ) - 1 := by
  have hc' : (0 : ℚ) < (c : ℚ) := by exact_mod_cast hc
  have h1 : (1 : ℚ) ≤ (g : ℚ) / (c : ℚ) := by
    rw [le_div_iff₀ hc']
    simpa using (by exact_mod_cast hle : (c : ℚ) ≤ (g : ℚ))
  linarith

lemma not_integer_div_sub_one (c g : ℕ) (hc : 0 < c) (hnd : ¬ c ∣ g) :
    ¬ ∃ z : ℤ, (g : ℚ) / (c : ℚ) - 1 = (z : ℚ) := by
  rintro ⟨z, hz⟩
  have hc' : ((c : ℚ)) ≠ 0 := by
    have : (0 : ℚ) < (c : ℚ) := by exact_mod_cast hc
    exact ne_of_gt this
  have h1 : (g : ℚ) / (c : ℚ) = (z : ℚ) + 1 := by linarith
  have h2 : (g : ℚ) = ((z : ℚ) + 1) * (c : ℚ) := by
    rw [div_eq_iff hc'] at h1
    exact h1
  have h3 : (g : ℤ) = (z + 1) * (c : ℤ) := by exact_mod_cast h2
  exact hnd (by
    have : (c : ℤ) ∣ (g : ℤ) := ⟨z + 1, by rw [h3]; ring⟩
    exact_mod_cast this)

/-- The wrap invariant: the current frame lies in `[0, frameInfo.count]`. -/
def Inv (s : State) : Prop :=
  0 ≤ s._frame ∧ s._frame ≤ s._frameInfo.count

lemma calc_Inv (s : State) (hc : 0 ≤ s._frameInfo.count) :
    Inv (_calculateNextTransform s) := by
  by_cases h : 0 ≤ s._frame ∧ s._frame ≤ s._frameInfo.count
  · exact ⟨by rw [calc_frame_of_inRange s h.1 h.2]; exact h.1,
      by rw [calc_frame_of_inRange s h.1 h.2, calc_frameInfo]; exact h.2⟩
  · have hf := calc_frame_of_notInRange s h
    constructor
    · rw [hf]
      unfold _initialFrame
      split
      exacts [hc, le_refl 0]
    · rw [hf, calc_frameInfo]
      unfold _initialFrame
      split
      exacts [le_refl _, hc]

lemma applyOp_frameInfo (s : State) (o : Op) : (applyOp s o)._frameInfo = s._frameInfo := by
  cases o with
  | startOp f =>
      show (start f s)._frameInfo = s._frameInfo
      unfold start
      split <;> rfl
  | stopOp =>
      show (stop s)._frameInfo = s._frameInfo
      unfold stop
      split <;> rfl
  | prevOp => exact previous_frameInfo s
  | nextOp => exact next_frameInfo s

lemma applyOp_Inv (s : State) (o : Op) (hc : 0 ≤ s._frameInfo.count) (h : Inv s) :
    Inv (applyOp s o) := by
  cases o with
  | startOp f =>
      show Inv (start f s)
      unfold start
      split
      · exact h
      · exact ⟨h.1, h.2⟩
  | stopOp =>
      show Inv (stop s)
      unfold stop
      split
      · exact ⟨h.1, h.2⟩
      · exact h
  | prevOp => exact calc_Inv _ hc
  | nextOp => exact calc_Inv _ hc

lemma run_Inv (ops : List Op) :
    ∀ s : State, 0 ≤ s._frameInfo.count → Inv s → Inv (run s ops) := by
  induction ops with
  | nil => intro s _ h; exact h
  | cons o os ih =>
      intro s hc h
      show Inv (run (applyOp s o) os)
      exact ih _ (by rw [applyOp_frameInfo]; exact hc) (applyOp_Inv s o hc h)

lemma iterate_next_frameInfo (s : State) (k : ℕ) :
    (next^[k] s)._frameInfo = s._frameInfo := by
  induction k with
  | zero => rfl
  | succ n ih => rw [Function.iterate_succ_apply', next_frameInfo, ih]

lemma iterate_next_reversed (s : State) (k : ℕ) :
    (next^[k] s)._reversed = s._reversed := by
  induction k with
  | zero => rfl
  | succ n ih => rw [Function.iterate_succ_apply', next_reversed, ih]

lemma iterate_previous_frameInfo (s : State) (k : ℕ) :
    (previous^[k] s)._frameInfo = s._frameInfo := by
  induction k with
  | zero => rfl
  | succ n ih => rw [Function.iterate_succ_apply', previous_frameInfo, ih]

lemma iterate_previous_reversed (s : State) (k : ℕ) :
    (previous^[k] s)._reversed = s._reversed := by
  induction k with
  | zero => rfl
  | succ n ih => rw [Function.iterate_succ_apply', previous_reversed, ih]

lemma iterate_next_frame (s : State) (n : ℕ) (hc : s._frameInfo.count = (n : ℚ))
    (hf : s._frame = 0) : ∀ k, k ≤ n → (next^[k] s)._frame = (k : ℚ) := by
  intro k
  induction k with
  | zero => intro _; simpa using hf
  | succ m ih =>
      intro hk
      have hm : m ≤ n := Nat.le_of_succ_le hk
      have hfr : (next^[m] s)._frame = (m : ℚ) := ih hm
      have hcnt : (next^[m] s)._frameInfo.count = (n : ℚ) := by
        rw [iterate_next_frameInfo, hc]
      rw [Function.iterate_succ_apply', next_frame_of_le, hfr]
      · push_cast
        ring
      · rw [hfr]
        positivity
      · rw [hfr, hcnt]
        exact_mod_cast hk

lemma iterate_previous_frame (t : State) (n : ℕ) (hc : t._frameInfo.count = (n : ℚ))
    (hf : t._frame = (n : ℚ)) : ∀ k, k ≤ n → (previous^[k] t)._frame = (n : ℚ) - (k : ℚ) := by
  intro k
  induction k with
  | zero => intro _; simpa using hf
  | succ m ih =>
      intro hk
      have hm : m ≤ n := Nat.le_of_succ_le hk
      have hfr : (previous^[m] t)._frame = (n : ℚ) - (m : ℚ) := ih hm
      have hcnt : (previous^[m] t)._frameInfo.count = (n : ℚ) := by
        rw [iterate_previous_frameInfo, hc]
      have hm1 : ((m : ℚ)) + 1 ≤ (n : ℚ) := by exact_mod_cast hk
      have hm0 : (0 : ℚ) ≤ (m : ℚ) := Nat.cast_nonneg m
      rw [Function.iterate_succ_apply', previous_frame_of_le, hfr]
      · push_cast
        ring
      · rw [hfr]
        linarith
      · rw [hfr, hcnt]
        linarith

/-! ### Claim theorems -/

/-- C3: when the sprite-sheet child reference is absent, construction does not
complete normally: it fails with the (one modelled) `ConfigurationError`,
which propagates to the caller — the constructor contains no handler that
could swallow it. -/
theorem C3_missing_graphic_fails (container : Elem) (i : ℚ) (d : Direction) (r : Bool) :
    construct container none i d r = Except.error ConfigError.ConfigurationError := rfl

/-- C4: direction inference.  The two later revisions resolve a wider-than-tall
sheet (500×100) to horizontal, as the claim states; the earliest revision
(imagesequence.js lines 750-761) resolves the same sheet to vertical, directly
contradicting its own comment ("Set our animation direction to horizontal if
the width of the graphic element is larger than its height") — a bug in that
revision's code. -/
theorem C4_early_revision_direction_inverted :
    _calculateDirectionEarly ⟨500, 100⟩ = Direction.vertical ∧
    _getContentDirection ⟨500, 100⟩ = Direction.horizontal ∧
    _calculateDirection ⟨500, 100⟩ = Direction.horizontal := by
  refine ⟨?_, ?_, ?_⟩ <;> rfl

/-- C7: every completed construction initializes `currentFrame` to
`frameInfo.count` when the reverse flag is set and to `0` otherwise. -/
theorem C7_initial_frame (container g : Elem) (i : ℚ) (d : Direction) (r : Bool) (s : State)
    (hok : construct container (some g) i d r = Except.ok s) :
    s._frame = if r then s._frameInfo.count else 0 := by
  simp only [construct] at hok
  rw [Except.ok.injEq] at hok
  subst hok
  cases r <;> simp [_initialFrame]

/-- C7 witness: the reversed construction of a 100×100 container with a
100×500 sheet starts at its last frame, `frameInfo.count = 4`. -/
theorem C7_initial_frame_witness :
    sampleReversed._frame = if true then sampleReversed._frameInfo.count else 0 :=
  C7_initial_frame ⟨100, 100⟩ ⟨100, 500⟩ 300 Direction.auto true sampleReversed
    construct_sampleReversed

/-- C9: `start` never reads its optional frame argument: calling it with any
frame is the same call as calling it with no argument, and `currentFrame` is
unchanged by the call. -/
theorem C9_start_opt_frame_inert (s : State) (f : ℚ) :
    start (some f) s = start none s ∧ (start (some f) s)._frame = s._frame := by
  refine ⟨rfl, ?_⟩
  unfold start
  split <;> rfl

/-- C1 counterexample: on the horizontal instance built from a 100×50
container and a 500×50 sheet, the frame extent along the resolved axis is the
frame width, 100, yet after one forward step (currentFrame = 1) the code
translates the sheet by −(1 × 50) — currentFrame times `frameInfo.height` —
not by −(1 × 100) as the claim requires for a horizontal instance. -/
theorem C1_counterexample :
    construct ⟨100, 50⟩ (some ⟨500, 50⟩) 300 Direction.auto false = Except.ok sampleHorizontal ∧
    _isHorizontal sampleHorizontal._direction = true ∧
    sampleHorizontal._frameInfo.width = 100 ∧
    (next sampleHorizontal)._frame = 1 ∧
    (next sampleHorizontal).graphicTransform = some (Transform.translateX (-(1 * 50))) ∧
    (next sampleHorizontal).graphicTransform ≠ some (Transform.translateX (-(1 * 100))) := by
  refine ⟨construct_sampleHorizontal, rfl, rfl, ?_, ?_, ?_⟩ <;>
    · simp [next, _calculateNextTransform, _frameInRange, _isHorizontal, _initialFrame,
        sampleHorizontal]
      try norm_num

/-- C1 amended: after every step (next or previous), the transform written to
the sprite-sheet is a translation along the resolved axis (X when horizontal,
Y when vertical) by the negation of currentFrame × `frameInfo.height` — the
container height — regardless of the resolved axis, not by the frame extent
along that axis. -/
theorem C1_offset_uses_frame_height (s : State) :
    (next s).graphicTransform = some (stepTransform (next s)) ∧
    (previous s).graphicTransform = some (stepTransform (previous s)) :=
  ⟨calc_graphicTransform _, calc_graphicTransform _⟩

/-- C6 counterexample: the construction from a 100×100 container and a 50×50
sheet has non-zero extents on both regions, yet `frameInfo.count`
is 50/100 − 1 = −1/2 < 0. -/
theorem C6_counterexample :
    construct ⟨100, 100⟩ (some ⟨50, 50⟩) 300 Direction.auto false = Except.ok sampleSmallSheet ∧
    (⟨100, 100⟩ : Elem).offsetWidth ≠ 0 ∧ (⟨100, 100⟩ : Elem).offsetHeight ≠ 0 ∧
    (⟨50, 50⟩ : Elem).offsetWidth ≠ 0 ∧ (⟨50, 50⟩ : Elem).offsetHeight ≠ 0 ∧
    sampleSmallSheet._frameInfo.count < 0 := by
  refine ⟨construct_sampleSmallSheet, ?_, ?_, ?_, ?_, ?_⟩ <;> norm_num [sampleSmallSheet]

/-- C6 amended: for every completed construction whose container extents are
positive and whose sheet extent along the resolved axis is at least the
container's corresponding extent, `frameInfo.count ≥ 0`. -/
theorem C6_count_nonneg (container g : Elem) (i : ℚ) (d : Direction) (r : Bool) (s : State)
    (hok : construct container (some g) i d r = Except.ok s)
    (hw : 0 < container.offsetWidth) (hh : 0 < container.offsetHeight)
    (hcov : if _isHorizontal s._direction then container.offsetWidth ≤ g.offsetWidth
            else container.offsetHeight ≤ g.offsetHeight) :
    0 ≤ s._frameInfo.count := by
  simp only [construct] at hok
  rw [Except.ok.injEq] at hok
  subst hok
  simp only [_getFrameCount] at hcov ⊢
  by_cases hb : _isHorizontal (if d = Direction.auto then _getContentDirection g else d)
  · rw [if_pos hb] at hcov ⊢
    exact count_nonneg_aux _ _ hw hcov
  · rw [if_neg hb] at hcov ⊢
    exact count_nonneg_aux _ _ hh hcov

/-- C6 amended witness: the construction from a 100×100 container and a
100×500 sheet satisfies the coverage hypothesis, and its count (4) is
non-negative. -/
theorem C6_count_nonneg_witness : 0 ≤ sampleForward._frameInfo.count :=
  C6_count_nonneg ⟨100, 100⟩ ⟨100, 500⟩ 300 Direction.auto false sampleForward
    construct_sampleForward (by norm_num) (by norm_num)
    (by simp [sampleForward, _isHorizontal])

/-- C8 counterexample: the construction from a 100×100 container and a
100×250 sheet (vertical, sheet height not an exact multiple of the container
height) has `frameInfo.count = 250/100 − 1 = 3/2`, which is not an integer:
the division does not truncate. -/
theorem C8_counterexample :
    construct ⟨100, 100⟩ (some ⟨100, 250⟩) 300 Direction.auto false = Except.ok sampleRagged ∧
    sampleRagged._frameInfo.count = 3 / 2 ∧
    ¬ ∃ z : ℤ, sampleRagged._frameInfo.count = (z : ℚ) := by
  refine ⟨construct_sampleRagged, by norm_num [sampleRagged], ?_⟩
  rintro ⟨z, hz⟩
  simp only [sampleRagged] at hz
  rw [div_eq_iff (by norm_num : (2 : ℚ) ≠ 0)] at hz
  have h3 : (3 : ℤ) = z * 2 := by exact_mod_cast hz
  omega

/-- C8 amended: the ratio used to compute `frameInfo.count` is exact division
with no truncation, so whenever the sheet extent along the resolved axis is
not an exact multiple of the container's corresponding (positive) extent,
`frameInfo.count` is not an integer. -/
theorem C8_no_truncation (container g : Elem) (i : ℚ) (d : Direction) (r : Bool) (s : State)
    (hok : construct container (some g) i d r = Except.ok s)
    (hw : 0 < container.offsetWidth) (hh : 0 < container.offsetHeight)
    (hnd : ¬ (if _isHorizontal s._direction then container.offsetWidth ∣ g.offsetWidth
              else container.offsetHeight ∣ g.offsetHeight)) :
    ¬ ∃ z : ℤ, s._frameInfo.count = (z : ℚ) := by
  simp only [construct] at hok
  rw [Except.ok.injEq] at hok
  subst hok
  simp only [_getFrameCount] at hnd ⊢
  by_cases hb : _isHorizontal (if d = Direction.auto then _getContentDirection g else d)
  · rw [if_pos hb] at hnd ⊢
    exact not_integer_div_sub_one _ _ hw hnd
  · rw [if_neg hb] at hnd ⊢
    exact not_integer_div_sub_one _ _ hh hnd

/-- C8 amended witness: on the 100×100 container with the 100×250 sheet the
sheet height is not a multiple of the container height, and the resulting
count 3/2 is not an integer. -/
theorem C8_no_truncation_witness :
    ¬ ∃ z : ℤ, sampleRagged._frameInfo.count = (z : ℚ) :=
  C8_no_truncation ⟨100, 100⟩ ⟨100, 250⟩ 300 Direction.auto false sampleRagged
    construct_sampleRagged (by norm_num) (by norm_num)
    (by simp [sampleRagged, _isHorizontal]; decide)

/-- C2: for every instance constructed from valid inputs (non-zero extents,
`frameInfo.count ≥ 0`) and every finite sequence of start/stop/previous/next
calls, `currentFrame` lies in `[0, frameInfo.count]` after the sequence. -/
theorem C2_wrap_invariant (container g : Elem) (i : ℚ) (d : Direction) (r : Bool) (s : State)
    (hok : construct container (some g) i d r = Except.ok s)
    (hw : container.offsetWidth ≠ 0) (hh : container.offsetHeight ≠ 0)
    (hgw : g.offsetWidth ≠ 0) (hgh : g.offsetHeight ≠ 0)
    (hc : 0 ≤ s._frameInfo.count) (ops : List Op) :
    0 ≤ (run s ops)._frame ∧ (run s ops)._frame ≤ (run s ops)._frameInfo.count := by
  have hinv : Inv s := by
    have hf : s._frame = _initialFrame r s._frameInfo.count := by
      simp only [construct] at hok
      rw [Except.ok.injEq] at hok
      subst hok
      rfl
    constructor
    · rw [hf]
      unfold _initialFrame
      split
      exacts [hc, le_refl _]
    · rw [hf]
      unfold _initialFrame
      split
      exacts [le_refl _, hc]
  exact run_Inv ops s hc hinv

/-- C2 witness: the valid vertical construction with count 4, run through the
call sequence next, start, previous, stop, previous, keeps its frame in
`[0, 4]`. -/
theorem C2_wrap_invariant_witness :
    construct ⟨100, 100⟩ (some ⟨100, 500⟩) 300 Direction.auto false = Except.ok sampleForward ∧
    0 ≤ sampleForward._frameInfo.count ∧
    (0 ≤ (run sampleForward
            [Op.nextOp, Op.startOp none, Op.prevOp, Op.stopOp, Op.prevOp])._frame ∧
      (run sampleForward
            [Op.nextOp, Op.startOp none, Op.prevOp, Op.stopOp, Op.prevOp])._frame ≤
        (run sampleForward
            [Op.nextOp, Op.startOp none, Op.prevOp, Op.stopOp, Op.prevOp])._frameInfo.count) :=
  ⟨construct_sampleForward, by norm_num [sampleForward],
    C2_wrap_invariant ⟨100, 100⟩ ⟨100, 500⟩ 300 Direction.auto false sampleForward
      construct_sampleForward (by norm_num) (by norm_num) (by norm_num) (by norm_num)
      (by norm_num [sampleForward])
      [Op.nextOp, Op.startOp none, Op.prevOp, Op.stopOp, Op.prevOp]⟩

/-- C5: cyclic stepping.  For a non-reversed instance with integer frame count
n starting at frame 0, n + 1 forward steps return the frame to 0; for a
reversed instance starting at its reversed-initial frame n, n + 1 backward
steps return the frame to n. -/
theorem C5_cyclic (s t : State) (n : ℕ)
    (hsc : s._frameInfo.count = (n : ℚ)) (hsr : s._reversed = false) (hsf : s._frame = 0)
    (htc : t._frameInfo.count = (n : ℚ)) (htr : t._reversed = true) (htf : t._frame = (n : ℚ)) :
    (next^[n + 1] s)._frame = 0 ∧ (previous^[n + 1] t)._frame = (n : ℚ) := by
  constructor
  · have hfr : (next^[n] s)._frame = (n : ℚ) :=
      iterate_next_frame s n hsc hsf n le_rfl
    have hcnt : (next^[n] s)._frameInfo.count = (n : ℚ) := by
      rw [iterate_next_frameInfo, hsc]
    have hrev : (next^[n] s)._reversed = false := by
      rw [iterate_next_reversed, hsr]
    rw [Function.iterate_succ_apply',
      next_frame_of_gt _ (by rw [hfr, hcnt]; linarith), hrev, hcnt]
    rfl
  · have hfr : (previous^[n] t)._frame = (n : ℚ) - (n : ℚ) :=
      iterate_previous_frame t n htc htf n le_rfl
    have hcnt : (previous^[n] t)._frameInfo.count = (n : ℚ) := by
      rw [iterate_previous_frameInfo, htc]
    have hrev : (previous^[n] t)._reversed = true := by
      rw [iterate_previous_reversed, htr]
    rw [Function.iterate_succ_apply',
      previous_frame_of_neg _ (by rw [hfr]; linarith), hrev, hcnt]
    rfl

/-- C5 witness: on the valid vertical construction with count 4, five forward
steps from frame 0 return to frame 0, and on its reversed counterpart five
backward steps from frame 4 return to frame 4. -/
theorem C5_cyclic_witness :
    sampleForward._frameInfo.count = ((4 : ℕ) : ℚ) ∧
    sampleReversed._frame = ((4 : ℕ) : ℚ) ∧
    ((next^[5] sampleForward)._frame = 0 ∧ (previous^[5] sampleReversed)._frame = ((4 : ℕ) : ℚ)) :=
  ⟨by norm_num [sampleForward], by norm_num [sampleReversed],
    C5_cyclic sampleForward sampleReversed 4 (by norm_num [sampleForward]) rfl rfl
      (by norm_num [sampleReversed]) rfl (by norm_num [sampleReversed])⟩

/-- C10: assigning the `interval` setter always leaves the instance active:
the setter calls `stop()` (a no-op when idle) and then `start()`, so setting
the interval on an idle instance starts playback as a side effect. -/
theorem C10_interval_setter_starts (s : State) (i : ℚ) :
    (set_interval i s)._active = true ∧ (set_interval i s)._interval = i := by
  unfold set_interval start
  constructor <;> (split <;> simp_all [stop_active])

end StepAnimation
